import Mathlib

/-!
Verification of the SpeakChat resilience core: the `RateLimiter`
(src/src/hooks/useApiCall.ts, second module: `RateLimiter` class) and the
`ApiService` resilient client (src/src/services/apiService.ts).

Conventions of the shallow embedding:
* JS timestamps (`Date.now()`, `new Date()`) are natural numbers (milliseconds).
* JS `Map<string, T>` is embedded as the function type `String → Option T`.
* Methods that mutate `this` become functions `State → Result × State` (or
  `State → State`).
* JS numeric arithmetic on the small non-negative integers used by these
  modules is embedded over `Nat`; `Math.max(0, a - b)` coincides with
  truncated `Nat` subtraction.
-/

/-! ## RateLimiter (src/src/hooks/useApiCall.ts, `RateLimiter` class) -/

/-- Embeds `interface RateLimitEntry`: per-key counters for the sustained
one-minute window and the short burst window. -/
structure RateLimitEntry where
  count : Nat
  resetTime : Nat
  burstCount : Nat
  burstResetTime : Nat
  deriving DecidableEq, Repr

/-- Embeds `interface RateLimitConfig`. -/
structure RateLimitConfig where
  perMinute : Nat
  perHour : Nat
  burstLimit : Nat
  burstWindow : Nat
  deriving DecidableEq, Repr

/-- The return shape of `checkRateLimit`: `{allowed, error?, resetTime?, remaining?}`. -/
structure CheckResult where
  allowed : Bool
  error : Option String
  resetTime : Option Nat
  remaining : Option Nat
  deriving DecidableEq, Repr

/-- The limiter's `private store = new Map<string, RateLimitEntry>()`. -/
def Store : Type := String → Option RateLimitEntry

/-- `store.set(key, entry)`. -/
def Store.set (s : Store) (key : String) (e : RateLimitEntry) : Store :=
  fun k => if k = key then some e else s k

/-- `store.delete(key)`. -/
def Store.del (s : Store) (key : String) : Store :=
  fun k => if k = key then none else s k

/-- An empty store (a fresh `RateLimiter`). -/
def Store.empty : Store := fun _ => none

/-- Embeds `private getKey(ip, endpoint)`. -/
def getKey (ip endpoint : String) : String :=
  ip ++ ":" ++ endpoint

/-- The burst-rejection message returned by `checkRateLimit`. -/
def burstMessage : String :=
  "Slow down a bit! Please wait a few seconds before your next message."

/-- The sustained-rejection message returned by `checkRateLimit`. -/
def sustainedMessage : String :=
  "You\x27re chatting quite actively! Please wait a moment before sending another message."

/-- Embeds `public checkRateLimit(ip, endpoint, config)`.  `now` stands for
`Date.now()`.  The source mutates the stored entry in place and calls
`this.store.set` both on creation and after incrementing, so on every path the
posterior store holds the entry as it stands at return time. -/
def checkRateLimit (ip endpoint : String) (config : RateLimitConfig) (now : Nat)
    (store : Store) : CheckResult × Store :=
  let key := getKey ip endpoint
  let entry :=
    match store key with
    | some e => e
    | none =>
      { count := 0, resetTime := now + 60 * 1000, burstCount := 0,
        burstResetTime := now + config.burstWindow }
  -- Reset counters if time windows have passed
  let entry :=
    if entry.resetTime ≤ now then
      { entry with count := 0, resetTime := now + 60 * 1000 }
    else entry
  let entry :=
    if entry.burstResetTime ≤ now then
      { entry with burstCount := 0, burstResetTime := now + config.burstWindow }
    else entry
  -- Check burst limit first
  if config.burstLimit ≤ entry.burstCount then
    ({ allowed := false, error := some burstMessage,
       resetTime := some entry.burstResetTime, remaining := some 0 },
     store.set key entry)
  -- Check per-minute limit
  else if config.perMinute ≤ entry.count then
    ({ allowed := false, error := some sustainedMessage,
       resetTime := some entry.resetTime, remaining := some 0 },
     store.set key entry)
  -- Increment counters
  else
    let entry := { entry with count := entry.count + 1, burstCount := entry.burstCount + 1 }
    ({ allowed := true, error := none,
       resetTime := some entry.resetTime, remaining := some (config.perMinute - entry.count) },
     store.set key entry)

/-- The entry `checkRateLimit` works with after lazy creation and window
resets (steps 1–3 of the algorithm); names the intermediate value so the
admission theorem can speak about the post-reset counters. -/
def windowEntry (config : RateLimitConfig) (now : Nat) (store : Store)
    (key : String) : RateLimitEntry :=
  let entry :=
    match store key with
    | some e => e
    | none =>
      { count := 0, resetTime := now + 60 * 1000, burstCount := 0,
        burstResetTime := now + config.burstWindow }
  let entry :=
    if entry.resetTime ≤ now then
      { entry with count := 0, resetTime := now + 60 * 1000 }
    else entry
  if entry.burstResetTime ≤ now then
    { entry with burstCount := 0, burstResetTime := now + config.burstWindow }
  else entry

/-- Embeds `private cleanup()`: the periodic sweep deleting entries whose
windows have both expired. -/
def cleanup (now : Nat) (store : Store) : Store :=
  fun k =>
    match store k with
    | some e => if e.resetTime < now ∧ e.burstResetTime < now then none else some e
    | none => none

/-- Embeds `public getRemainingRequests(ip, endpoint)`.  Note the hard-coded
`30` in the source (`if (!entry) return 30; ... Math.max(0, 30 - entry.count)`). -/
def getRemainingRequests (ip endpoint : String) (now : Nat) (store : Store) : Nat :=
  let key := getKey ip endpoint
  match store key with
  | none => 30
  | some entry =>
    if entry.resetTime ≤ now then 30
    else 30 - entry.count

/-- Embeds `RATE_LIMITS.chat`. -/
def RATE_LIMITS_chat : RateLimitConfig :=
  { perMinute := 30, perHour := 100, burstLimit := 5, burstWindow := 10000 }

/-- Embeds `RATE_LIMITS.health`. -/
def RATE_LIMITS_health : RateLimitConfig :=
  { perMinute := 60, perHour := 200, burstLimit := 10, burstWindow := 5000 }

/-- Unfolding lemma: `checkRateLimit` is the three-way branch on `windowEntry`. -/
theorem checkRateLimit_eq (ip endpoint : String) (config : RateLimitConfig)
    (now : Nat) (store : Store) :
    checkRateLimit ip endpoint config now store =
      (if config.burstLimit ≤ (windowEntry config now store (getKey ip endpoint)).burstCount then
         ({ allowed := false, error := some burstMessage,
            resetTime := some (windowEntry config now store (getKey ip endpoint)).burstResetTime,
            remaining := some 0 },
          store.set (getKey ip endpoint) (windowEntry config now store (getKey ip endpoint)))
       else if config.perMinute ≤ (windowEntry config now store (getKey ip endpoint)).count then
         ({ allowed := false, error := some sustainedMessage,
            resetTime := some (windowEntry config now store (getKey ip endpoint)).resetTime,
            remaining := some 0 },
          store.set (getKey ip endpoint) (windowEntry config now store (getKey ip endpoint)))
       else
         ({ allowed := true, error := none,
            resetTime := some (windowEntry config now store (getKey ip endpoint)).resetTime,
            remaining :=
              some (config.perMinute -
                ((windowEntry config now store (getKey ip endpoint)).count + 1)) },
          store.set (getKey ip endpoint)
            { windowEntry config now store (getKey ip endpoint) with
              count := (windowEntry config now store (getKey ip endpoint)).count + 1,
              burstCount := (windowEntry config now store (getKey ip endpoint)).burstCount + 1 })) := by
  unfold checkRateLimit windowEntry
  rfl

/-- Setting a key right after deleting it is the same as setting it directly. -/
theorem Store.set_del (store : Store) (key : String) (e : RateLimitEntry) :
    (store.del key).set key e = store.set key e := by
  funext k
  by_cases h : k = key <;> simp [Store.set, Store.del, h]

/-- C4: Rate limiter admission algorithm: after lazily creating or
window-resetting the entry (`windowEntry`), a burst-exhausted entry is
rejected with the burst reason, `resetAt = burstResetAt` and `remaining = 0`
regardless of the sustained count; otherwise a sustained-exhausted entry is
rejected with the sustained reason and `resetAt = windowResetAt`; otherwise
the call is admitted, both counters are incremented, and the result carries
`remaining = perMinute - count` and `resetAt = windowResetAt`. -/
theorem checkRateLimit_admission (ip endpoint : String) (config : RateLimitConfig)
    (now : Nat) (store : Store) :
    (config.burstLimit ≤ (windowEntry config now store (getKey ip endpoint)).burstCount →
      checkRateLimit ip endpoint config now store =
        ({ allowed := false, error := some burstMessage,
           resetTime := some (windowEntry config now store (getKey ip endpoint)).burstResetTime,
           remaining := some 0 },
         store.set (getKey ip endpoint) (windowEntry config now store (getKey ip endpoint)))) ∧
    ((windowEntry config now store (getKey ip endpoint)).burstCount < config.burstLimit →
     config.perMinute ≤ (windowEntry config now store (getKey ip endpoint)).count →
      checkRateLimit ip endpoint config now store =
        ({ allowed := false, error := some sustainedMessage,
           resetTime := some (windowEntry config now store (getKey ip endpoint)).resetTime,
           remaining := some 0 },
         store.set (getKey ip endpoint) (windowEntry config now store (getKey ip endpoint)))) ∧
    ((windowEntry config now store (getKey ip endpoint)).burstCount < config.burstLimit →
     (windowEntry config now store (getKey ip endpoint)).count < config.perMinute →
      checkRateLimit ip endpoint config now store =
        ({ allowed := true, error := none,
           resetTime := some (windowEntry config now store (getKey ip endpoint)).resetTime,
           remaining :=
             some (config.perMinute - ((windowEntry config now store (getKey ip endpoint)).count + 1)) },
         store.set (getKey ip endpoint)
           { windowEntry config now store (getKey ip endpoint) with
             count := (windowEntry config now store (getKey ip endpoint)).count + 1,
             burstCount := (windowEntry config now store (getKey ip endpoint)).burstCount + 1 })) := by
  rw [checkRateLimit_eq ip endpoint config now store]
  refine ⟨fun hb => ?_, fun hb hs => ?_, fun hb hs => ?_⟩
  · simp only [if_pos hb]
  · simp only [if_neg (Nat.not_le.mpr hb), if_pos hs]
  · simp only [if_neg (Nat.not_le.mpr hb), if_neg (Nat.not_le.mpr hs)]

/-- Witness for C4: with `RATE_LIMITS.chat`, a burst-exhausted entry is
rejected with the burst reason even though `count < perMinute`; a
sustained-exhausted entry is rejected with the sustained reason; an entry
with both quotas left is admitted with `remaining = perMinute - count`. -/
theorem checkRateLimit_admission_witness :
    ((checkRateLimit "1.2.3.4" "chat" RATE_LIMITS_chat 0
        (Store.set Store.empty "1.2.3.4:chat" ⟨3, 60000, 5, 10000⟩)).1 =
      { allowed := false, error := some burstMessage, resetTime := some 10000,
        remaining := some 0 }) ∧
    ((checkRateLimit "1.2.3.4" "chat" RATE_LIMITS_chat 0
        (Store.set Store.empty "1.2.3.4:chat" ⟨30, 60000, 2, 10000⟩)).1 =
      { allowed := false, error := some sustainedMessage, resetTime := some 60000,
        remaining := some 0 }) ∧
    ((checkRateLimit "1.2.3.4" "chat" RATE_LIMITS_chat 0
        (Store.set Store.empty "1.2.3.4:chat" ⟨3, 60000, 2, 10000⟩)).1 =
      { allowed := true, error := none, resetTime := some 60000,
        remaining := some 26 }) := by
  refine ⟨?_, ?_, ?_⟩
  · rw [(checkRateLimit_admission "1.2.3.4" "chat" RATE_LIMITS_chat 0
      (Store.set Store.empty "1.2.3.4:chat" ⟨3, 60000, 5, 10000⟩)).1 (by decide)]
    decide
  · rw [(checkRateLimit_admission "1.2.3.4" "chat" RATE_LIMITS_chat 0
      (Store.set Store.empty "1.2.3.4:chat" ⟨30, 60000, 2, 10000⟩)).2.1 (by decide) (by decide)]
    decide
  · rw [(checkRateLimit_admission "1.2.3.4" "chat" RATE_LIMITS_chat 0
      (Store.set Store.empty "1.2.3.4:chat" ⟨3, 60000, 2, 10000⟩)).2.2 (by decide) (by decide)]
    decide

/-- The post-reset entry for a key whose stored entry has both windows
expired: both counters reset and both windows advanced from `now`. -/
theorem windowEntry_expired (config : RateLimitConfig) (now : Nat) (store : Store)
    (key : String) (e : RateLimitEntry) (hsome : store key = some e)
    (hreset : e.resetTime < now) (hburst : e.burstResetTime < now) :
    windowEntry config now store key =
      { count := 0, resetTime := now + 60 * 1000, burstCount := 0,
        burstResetTime := now + config.burstWindow } := by
  unfold windowEntry
  rw [hsome]
  simp only [if_pos (Nat.le_of_lt hreset)]
  simp only [if_pos (Nat.le_of_lt hburst)]

/-- The post-reset entry for a key that is absent from the store: the lazily
created entry, with both windows opening at `now`. -/
theorem windowEntry_absent (config : RateLimitConfig) (now : Nat) (store : Store)
    (key : String) (h : store key = none) :
    windowEntry config now store key =
      { count := 0, resetTime := now + 60 * 1000, burstCount := 0,
        burstResetTime := now + config.burstWindow } := by
  unfold windowEntry
  rw [h]
  have h1 : ¬ (now + 60 * 1000 ≤ now) := by omega
  simp only [if_neg h1]
  split <;> rfl

/-- C8: Expired entry equivalence: a check on a store whose entry for the key
has both the sustained window and the burst window expired returns the same
result and leaves the same posterior store as the same check on the store
with that entry removed, so garbage-collecting such an entry never changes
observable behaviour. -/
theorem expired_entry_equiv (ip endpoint : String) (config : RateLimitConfig)
    (now : Nat) (store : Store) (e : RateLimitEntry)
    (hsome : store (getKey ip endpoint) = some e)
    (hreset : e.resetTime < now) (hburst : e.burstResetTime < now) :
    checkRateLimit ip endpoint config now store =
      checkRateLimit ip endpoint config now (store.del (getKey ip endpoint)) := by
  rw [checkRateLimit_eq, checkRateLimit_eq,
    windowEntry_expired config now store (getKey ip endpoint) e hsome hreset hburst,
    windowEntry_absent config now (store.del (getKey ip endpoint)) (getKey ip endpoint)
      (by simp [Store.del])]
  simp only [Store.set_del]

/-- Witness for C8: a concrete store holding an entry for the key with both
windows expired behaves exactly like the store with the entry deleted. -/
theorem expired_entry_equiv_witness :
    checkRateLimit "9.9.9.9" "chat" RATE_LIMITS_chat 200000
        (Store.set Store.empty "9.9.9.9:chat" ⟨7, 100, 3, 50⟩) =
      checkRateLimit "9.9.9.9" "chat" RATE_LIMITS_chat 200000
        ((Store.set Store.empty "9.9.9.9:chat" ⟨7, 100, 3, 50⟩).del
          (getKey "9.9.9.9" "chat")) :=
  expired_entry_equiv "9.9.9.9" "chat" RATE_LIMITS_chat 200000
    (Store.set Store.empty "9.9.9.9:chat" ⟨7, 100, 3, 50⟩) ⟨7, 100, 3, 50⟩
    (by decide) (by decide) (by decide)

/-- C9: the configured policy is not the single source of truth for quotas:
`getRemainingRequests` hard-codes a quota of 30, so for the `health` route
(policy `perMinute = 60`) it reports 30 on an absent entry and `30 - count`
after an admission, while the admission path itself reports
`perMinute - count = 59` — the hard-coded per-route default differs from the
configured policy. -/
theorem getRemainingRequests_hardcoded :
    RATE_LIMITS_health.perMinute = 60 ∧
    getRemainingRequests "127.0.0.1" "health" 0 Store.empty = 30 ∧
    (checkRateLimit "127.0.0.1" "health" RATE_LIMITS_health 0 Store.empty).1.remaining =
      some 59 ∧
    getRemainingRequests "127.0.0.1" "health" 1
      (checkRateLimit "127.0.0.1" "health" RATE_LIMITS_health 0 Store.empty).2 = 29 := by
  refine ⟨rfl, rfl, ?_, ?_⟩ <;> decide

/-- C10: the `perHour` field never influences admission: two configurations
that agree on `perMinute`, `burstLimit` and `burstWindow` (hence differ at
most in `perHour`) produce identical results and identical posterior stores
on every check. -/
theorem perHour_no_influence (ip endpoint : String) (c1 c2 : RateLimitConfig)
    (now : Nat) (store : Store)
    (hm : c1.perMinute = c2.perMinute) (hb : c1.burstLimit = c2.burstLimit)
    (hw : c1.burstWindow = c2.burstWindow) :
    checkRateLimit ip endpoint c1 now store = checkRateLimit ip endpoint c2 now store := by
  obtain ⟨m1, h1, b1, w1⟩ := c1
  obtain ⟨m2, h2, b2, w2⟩ := c2
  dsimp only at hm hb hw
  subst hm; subst hb; subst hw
  rfl

/-- Witness for C10: the chat policy and the chat policy with a very
different `perHour` give identical checks. -/
theorem perHour_no_influence_witness :
    checkRateLimit "1.1.1.1" "chat"
        { perMinute := 30, perHour := 100, burstLimit := 5, burstWindow := 10000 }
        0 Store.empty =
      checkRateLimit "1.1.1.1" "chat"
        { perMinute := 30, perHour := 999999, burstLimit := 5, burstWindow := 10000 }
        0 Store.empty :=
  perHour_no_influence "1.1.1.1" "chat"
    { perMinute := 30, perHour := 100, burstLimit := 5, burstWindow := 10000 }
    { perMinute := 30, perHour := 999999, burstLimit := 5, burstWindow := 10000 }
    0 Store.empty rfl rfl rfl

/-! ## ApiService (src/src/services/apiService.ts) -/

/-- Embeds `ApiError['type']`. -/
inductive ErrorType where
  | network
  | server
  | client
  | timeout
  | rate_limit
  | auth
  | unknown
  deriving DecidableEq, Repr

/-- Embeds `interface ApiError`. -/
structure ApiError where
  type : ErrorType
  message : String
  statusCode : Option Nat
  retryable : Bool
  retryAfter : Option Nat
  deriving DecidableEq, Repr

/-- Embeds `interface ConnectionStatus`. -/
structure ConnectionStatus where
  isOnline : Bool
  lastChecked : Nat
  responseTime : Option Nat
  deriving DecidableEq, Repr

/-- The circuit-breaker part of the service's private state:
`circuitBreakerFailures` and `circuitBreakerLastFailure`. -/
structure CircuitBreakerState where
  failures : Nat
  lastFailure : Option Nat
  deriving DecidableEq, Repr

/-- `private readonly circuitBreakerThreshold = 5`. -/
def circuitBreakerThreshold : Nat := 5

/-- `private readonly circuitBreakerResetTime = 60000`. -/
def circuitBreakerResetTime : Nat := 60000

/-- `this.timeout = 30000`. -/
def timeoutMs : Nat := 30000

/-- `this.maxRetries = 3`. -/
def maxRetries : Nat := 3

/-- `this.retryDelay = 1000`. -/
def retryDelay : Nat := 1000

/-- The mutable state of the `ApiService` singleton relevant to the resilient
pipeline: connection status, circuit breaker counters, and the keys of the
`requestQueue` dedup map (its promises live in the dedup model below). -/
structure ApiServiceState where
  connectionStatus : ConnectionStatus
  breaker : CircuitBreakerState
  requestQueue : List String
  deriving DecidableEq, Repr

/-- Embeds `private createApiError(type, message, statusCode?, retryable = false, retryAfter?)`. -/
def createApiError (type : ErrorType) (message : String) (statusCode : Option Nat)
    (retryable : Bool) (retryAfter : Option Nat) : ApiError :=
  { type := type, message := message, statusCode := statusCode,
    retryable := retryable, retryAfter := retryAfter }

/-- Embeds `private handleHttpError(response)`.  `message` is the message
extracted from the response body (or status text), and `retryAfterHeader` the
already-parsed numeric value of the `Retry-After` header; the source's
`parseInt(response.headers.get(..) || recovery)` default of `60` is
`Option.getD 60`. -/
def handleHttpError (statusCode : Nat) (message : String)
    (retryAfterHeader : Option Nat) : ApiError :=
  if 500 ≤ statusCode then
    createApiError ErrorType.server message (some statusCode) true none
  else if statusCode = 429 then
    createApiError ErrorType.rate_limit "Too many requests" (some statusCode) true
      (some ((retryAfterHeader.getD 60) * 1000))
  else if statusCode = 401 ∨ statusCode = 403 then
    createApiError ErrorType.auth "Authentication failed" (some statusCode) false none
  else if 400 ≤ statusCode then
    createApiError ErrorType.client message (some statusCode) false none
  else
    createApiError ErrorType.unknown message (some statusCode) false none

/-- Embeds `private recordFailure()`; `now` stands for `new Date()`. -/
def recordFailure (now : Nat) (b : CircuitBreakerState) : CircuitBreakerState :=
  { failures := b.failures + 1, lastFailure := some now }

/-- Embeds `private isCircuitBreakerOpen()`.  The method both reports and
lazily resets: once the reset window has elapsed it zeroes the counters as a
side effect, so it returns the flag together with the posterior breaker. -/
def isCircuitBreakerOpen (now : Nat) (b : CircuitBreakerState) :
    Bool × CircuitBreakerState :=
  if b.failures < circuitBreakerThreshold then (false, b)
  else
    match b.lastFailure with
    | none => (false, b)
    | some t =>
      if circuitBreakerResetTime < now - t then
        (false, { failures := 0, lastFailure := none })
      else
        (true, b)

/-- Embeds `public getConnectionStatus()`: returns a copy
`{ ...this.connectionStatus }` and reads nothing else; it takes no posterior
state because the method body contains no assignment. -/
def getConnectionStatus (st : ApiServiceState) : ConnectionStatus :=
  { isOnline := st.connectionStatus.isOnline,
    lastChecked := st.connectionStatus.lastChecked,
    responseTime := st.connectionStatus.responseTime }

/-- The record returned by `public getMetrics()`. -/
structure Metrics where
  circuitBreakerFailures : Nat
  isCircuitBreakerOpen : Bool
  queueSize : Nat
  connectionStatus : ConnectionStatus
  deriving DecidableEq, Repr

/-- Embeds `public getMetrics()`.  JS object literals evaluate their fields
in order: `circuitBreakerFailures` is read before `isCircuitBreakerOpen()`
runs (and possibly lazily resets the breaker), so the reported count is the
pre-reset one while the posterior state carries the reset. -/
def getMetrics (now : Nat) (st : ApiServiceState) : Metrics × ApiServiceState :=
  let failures := st.breaker.failures
  let checked := isCircuitBreakerOpen now st.breaker
  ({ circuitBreakerFailures := failures, isCircuitBreakerOpen := checked.1,
     queueSize := st.requestQueue.length, connectionStatus := getConnectionStatus st },
   { st with breaker := checked.2 })

/-- Embeds `private calculateRetryDelay(retryCount)` over `ℚ` (JS number
arithmetic on these magnitudes is exact); `jitterRand` stands for the
`Math.random()` sample in `[0, 1)`. -/
def calculateRetryDelay (jitterRand : ℚ) (retryCount : Nat) : ℚ :=
  let baseDelay : ℚ := (retryDelay : ℚ) * 2 ^ retryCount
  let jitter : ℚ := jitterRand * (1 / 10) * baseDelay
  min (baseDelay + jitter) 30000

/-- The possible behaviours of one `fetch` attempt inside `makeRequest`, as
seen by the surrounding `try`/`catch`:
* `abortError`: `fetch` rejects with an `AbortError` (the 30s timeout fired);
* `typeError`: `fetch` rejects with a `TypeError` mentioning `fetch`
  (transport/connect failure);
* `otherError`: `fetch` (or other code in the `try`) throws something that is
  neither of those and not an `ApiError`;
* `response ok status msg retryAfterHeader jsonOk elapsed`: `fetch` resolves
  after `elapsed` ms with `response.ok = ok`, the given status, a body whose
  extracted message/data is `msg`, the parsed `Retry-After` header, and
  `jsonOk` telling whether `response.json()` parses on the success path. -/
inductive FetchOutcome where
  | abortError
  | typeError
  | otherError
  | response (ok : Bool) (status : Nat) (msg : String)
      (retryAfterHeader : Option Nat) (jsonOk : Bool) (elapsed : Nat)
  deriving DecidableEq, Repr

/-- Embeds `private async makeRequest<T>(url, options, retryCount = 0)`.
`tm n` is the `Date.now()` clock during attempt `n` (the clock is sampled
once per attempt); `env n` is the behaviour of attempt `n`'s `fetch`.  `fuel`
bounds the recursion; the `fuel = 0` fallback is unreachable from
`makeRequest`, which supplies `maxRetries + 1` while the source only recurs
when `retryCount < maxRetries`.  The backoff sleep
(`calculateRetryDelay` / `sleep`) touches no modelled state.  Faithful to the
source order: a completed `fetch` first updates the connection status and
resets the breaker, and only then checks `response.ok`; `AbortError` and
`TypeError` rejections are rethrown as classified errors before the
`isApiError` retry branch is ever reached, so they neither record a failure
nor retry. -/
def makeRequestAux (tm : Nat → Nat) (env : Nat → FetchOutcome) :
    Nat → Nat → ApiServiceState → Except ApiError String × ApiServiceState
  | fuel, retryCount, st =>
    let now := tm retryCount
    -- Check circuit breaker
    let checked := isCircuitBreakerOpen now st.breaker
    let st1 := { st with breaker := checked.2 }
    if checked.1 then
      (Except.error
        (createApiError ErrorType.server "Service temporarily unavailable" (some 503) false none),
       st1)
    -- Check if we're offline
    else if st1.connectionStatus.isOnline = false then
      (Except.error (createApiError ErrorType.network "No internet connection" none true none),
       st1)
    else
      match env retryCount with
      | FetchOutcome.abortError =>
        (Except.error (createApiError ErrorType.timeout "Request timed out" none true none), st1)
      | FetchOutcome.typeError =>
        (Except.error
          (createApiError ErrorType.network "Network connection failed" none true none), st1)
      | FetchOutcome.otherError =>
        (Except.error
          (createApiError ErrorType.unknown "An unexpected error occurred" none false none),
         { st1 with breaker := recordFailure now st1.breaker })
      | FetchOutcome.response ok status msg retryAfterHeader jsonOk elapsed =>
        -- fetch completed: update connection status, reset circuit breaker
        let st2 := { st1 with
          connectionStatus := { isOnline := st1.connectionStatus.isOnline, lastChecked := now + elapsed, responseTime := some elapsed },
          breaker := { failures := 0, lastFailure := none } }
        if ok then
          if jsonOk then
            (Except.ok msg, st2)
          else
            (Except.error
              (createApiError ErrorType.unknown "An unexpected error occurred" none false none),
             { st2 with breaker := recordFailure now st2.breaker })
        else
          let err := handleHttpError status msg retryAfterHeader
          let st3 := { st2 with breaker := recordFailure now st2.breaker }
          if err.retryable = true ∧ retryCount < maxRetries then
            match fuel with
            | Nat.succ f => makeRequestAux tm env f (retryCount + 1) st3
            | 0 => (Except.error err, st3)
          else
            (Except.error err, st3)

/-- `makeRequest` proper: `makeRequestAux` with enough fuel for the retry
budget (the source recurs at most while `retryCount < maxRetries`). -/
def makeRequest (tm : Nat → Nat) (env : Nat → FetchOutcome) (retryCount : Nat)
    (st : ApiServiceState) : Except ApiError String × ApiServiceState :=
  makeRequestAux tm env (maxRetries + 1) retryCount st

/-- C5: Error classification of HTTP responses: status ≥ 500 is `server` and
retryable; status 429 is `rate_limit`, retryable, with `retryAfter` taken
from the parsed `Retry-After` header (milliseconds) and defaulting to 60
seconds when the header is absent; status 401 or 403 is `auth`, not
retryable; every other 4xx is `client`, not retryable. -/
theorem handleHttpError_classification (statusCode : Nat) (message : String)
    (retryAfterHeader : Option Nat) :
    (500 ≤ statusCode →
      handleHttpError statusCode message retryAfterHeader =
        { type := ErrorType.server, message := message, statusCode := some statusCode,
          retryable := true, retryAfter := none }) ∧
    (statusCode = 429 →
      (∀ v, retryAfterHeader = some v →
        handleHttpError statusCode message retryAfterHeader =
          { type := ErrorType.rate_limit, message := "Too many requests",
            statusCode := some statusCode, retryable := true,
            retryAfter := some (v * 1000) }) ∧
      (retryAfterHeader = none →
        handleHttpError statusCode message retryAfterHeader =
          { type := ErrorType.rate_limit, message := "Too many requests",
            statusCode := some statusCode, retryable := true,
            retryAfter := some 60000 })) ∧
    (statusCode = 401 ∨ statusCode = 403 →
      handleHttpError statusCode message retryAfterHeader =
        { type := ErrorType.auth, message := "Authentication failed",
          statusCode := some statusCode, retryable := false, retryAfter := none }) ∧
    (400 ≤ statusCode → statusCode < 500 → statusCode ≠ 429 → statusCode ≠ 401 →
      statusCode ≠ 403 →
      handleHttpError statusCode message retryAfterHeader =
        { type := ErrorType.client, message := message, statusCode := some statusCode,
          retryable := false, retryAfter := none }) := by
  refine ⟨fun h5 => ?_, fun h429 => ?_, fun hauth => ?_, fun h4 h5 hne429 hne401 hne403 => ?_⟩
  · unfold handleHttpError createApiError
    rw [if_pos h5]
  · subst h429
    constructor
    · intro v hv
      subst hv
      rfl
    · intro hv
      subst hv
      rfl
  · have h5 : ¬ (500 ≤ statusCode) := by omega
    have h429 : ¬ (statusCode = 429) := by omega
    unfold handleHttpError createApiError
    rw [if_neg h5, if_neg h429, if_pos hauth]
  · unfold handleHttpError createApiError
    rw [if_neg (by omega : ¬ (500 ≤ statusCode)), if_neg hne429,
      if_neg (by simp [hne401, hne403]), if_pos h4]

/-- Witness for C5: concrete classifications of 503, 429 (with and without a
`Retry-After` header), 401 and 404 responses. -/
theorem handleHttpError_classification_witness :
    handleHttpError 503 "oops" none =
      { type := ErrorType.server, message := "oops", statusCode := some 503,
        retryable := true, retryAfter := none } ∧
    handleHttpError 429 "x" (some 2) =
      { type := ErrorType.rate_limit, message := "Too many requests",
        statusCode := some 429, retryable := true, retryAfter := some 2000 } ∧
    handleHttpError 429 "x" none =
      { type := ErrorType.rate_limit, message := "Too many requests",
        statusCode := some 429, retryable := true, retryAfter := some 60000 } ∧
    handleHttpError 401 "x" none =
      { type := ErrorType.auth, message := "Authentication failed",
        statusCode := some 401, retryable := false, retryAfter := none } ∧
    handleHttpError 404 "missing" none =
      { type := ErrorType.client, message := "missing", statusCode := some 404,
        retryable := false, retryAfter := none } :=
  ⟨(handleHttpError_classification 503 "oops" none).1 (by omega),
   ((handleHttpError_classification 429 "x" (some 2)).2.1 rfl).1 2 rfl,
   ((handleHttpError_classification 429 "x" none).2.1 rfl).2 rfl,
   (handleHttpError_classification 401 "x" none).2.2.1 (Or.inl rfl),
   (handleHttpError_classification 404 "missing" none).2.2.2 (by omega) (by omega)
     (by omega) (by omega) (by omega)⟩

/-- C7: Retry backoff: the computed delay is `retryDelay * 2 ^ attempt` plus
a jitter of between 0% and 10% of that value, capped at 30000 ms; the jitter
is nonnegative and at most a tenth of the base; and, at zero jitter, the
delay is strictly increasing in the attempt number while below the cap. -/
theorem calculateRetryDelay_spec (jitterRand : ℚ) (n : Nat)
    (h0 : 0 ≤ jitterRand) (h1 : jitterRand ≤ 1) :
    calculateRetryDelay jitterRand n =
      min ((retryDelay : ℚ) * 2 ^ n + jitterRand * (1 / 10) * ((retryDelay : ℚ) * 2 ^ n))
        30000 ∧
    0 ≤ jitterRand * (1 / 10) * ((retryDelay : ℚ) * 2 ^ n) ∧
    jitterRand * (1 / 10) * ((retryDelay : ℚ) * 2 ^ n) ≤
      (1 / 10) * ((retryDelay : ℚ) * 2 ^ n) ∧
    calculateRetryDelay jitterRand n ≤ 30000 ∧
    (calculateRetryDelay 0 n < 30000 →
      calculateRetryDelay 0 n < calculateRetryDelay 0 (n + 1)) := by
  have hbase : (0 : ℚ) < (retryDelay : ℚ) * 2 ^ n := by
    have h2 : (0 : ℚ) < 2 ^ n := by positivity
    simp only [retryDelay]
    positivity
  refine ⟨rfl, ?_, ?_, ?_, ?_⟩
  · positivity
  · have hb : (0 : ℚ) ≤ (1 / 10) * ((retryDelay : ℚ) * 2 ^ n) := by positivity
    nlinarith
  · exact min_le_right _ _
  · intro hlt
    have he : calculateRetryDelay 0 n = min ((retryDelay : ℚ) * 2 ^ n) 30000 := by
      unfold calculateRetryDelay
      norm_num
    have he2 : calculateRetryDelay 0 (n + 1) = min ((retryDelay : ℚ) * 2 ^ (n + 1)) 30000 := by
      unfold calculateRetryDelay
      norm_num
    rw [he] at hlt ⊢
    rw [he2]
    have hlt2 : (retryDelay : ℚ) * 2 ^ n < 30000 := by
      by_contra hc
      push_neg at hc
      rw [min_eq_right hc] at hlt
      exact lt_irrefl _ hlt
    rw [min_eq_left (le_of_lt hlt2)] at hlt ⊢
    refine lt_min ?_ hlt2
    have h2 : (retryDelay : ℚ) * 2 ^ (n + 1) = 2 * ((retryDelay : ℚ) * 2 ^ n) := by
      ring
    rw [h2]
    nlinarith

/-- Witness for C7: the concrete delays at zero jitter are 1000, 2000, and
the cap binds from attempt 5 on; a half-unit jitter on attempt 0 gives
1050 ms. -/
theorem calculateRetryDelay_spec_witness :
    calculateRetryDelay 0 0 = 1000 ∧ calculateRetryDelay 0 1 = 2000 ∧
    calculateRetryDelay 0 5 = 30000 ∧ calculateRetryDelay (1 / 2) 0 = 1050 ∧
    calculateRetryDelay 0 1 ≤ 30000 ∧
    (calculateRetryDelay 0 1 < 30000 → calculateRetryDelay 0 1 < calculateRetryDelay 0 2) := by
  have h := calculateRetryDelay_spec (1 / 2) 0 (by norm_num) (by norm_num)
  have h1 := calculateRetryDelay_spec 0 1 (le_refl 0) (by norm_num)
  refine ⟨?_, ?_, ?_, ?_, h1.2.2.2.1, h1.2.2.2.2⟩
  · unfold calculateRetryDelay retryDelay
    norm_num
  · unfold calculateRetryDelay retryDelay
    norm_num
  · unfold calculateRetryDelay retryDelay
    norm_num
  · rw [h.1]
    unfold retryDelay
    norm_num

/-- A fresh service state: online, breaker closed, empty dedup queue. -/
def initialState : ApiServiceState :=
  { connectionStatus := { isOnline := true, lastChecked := 0, responseTime := none },
    breaker := { failures := 0, lastFailure := none },
    requestQueue := [] }

/-- A state whose breaker has just tripped: five recorded failures, the last
one at time 0. -/
def trippedState : ApiServiceState :=
  { connectionStatus := { isOnline := true, lastChecked := 0, responseTime := none },
    breaker := { failures := 5, lastFailure := some 0 },
    requestQueue := [] }

/-- Counterexample to C6: `getMetrics` does mutate state.  On a tripped
breaker whose 60s reset window has elapsed, the embedded
`isCircuitBreakerOpen()` call inside `getMetrics` lazily resets the
counters, and the change is observable: a second `getMetrics` reports 0
consecutive failures where, without the first call, it would report 5. -/
theorem getMetrics_mutates_breaker :
    (getMetrics 100000 trippedState).2 ≠ trippedState ∧
    (getMetrics 100000 trippedState).2.breaker.failures = 0 ∧
    trippedState.breaker.failures = 5 ∧
    (getMetrics 100001 (getMetrics 100000 trippedState).2).1.circuitBreakerFailures = 0 ∧
    (getMetrics 100001 trippedState).1.circuitBreakerFailures = 5 := by
  refine ⟨by decide, rfl, rfl, rfl, rfl⟩

/-- C6 (amended): `getConnectionStatus` returns a copy of the connection
status and performs no writes; `getMetrics` reports the pre-call failure
count, never touches the connection status or the in-flight queue, and
leaves the state entirely unchanged except in one case: when the breaker has
tripped (failures at or above the threshold, last failure recorded) and the
reset window has elapsed, it performs the breaker's lazy reset
(failures := 0, last failure cleared) as a side effect of the embedded
`isCircuitBreakerOpen()`. -/
theorem introspection_readonly_amended (now : Nat) (st : ApiServiceState) :
    getConnectionStatus st = st.connectionStatus ∧
    (getMetrics now st).1.circuitBreakerFailures = st.breaker.failures ∧
    (getMetrics now st).2.connectionStatus = st.connectionStatus ∧
    (getMetrics now st).2.requestQueue = st.requestQueue ∧
    (st.breaker.failures < circuitBreakerThreshold → (getMetrics now st).2 = st) ∧
    (st.breaker.lastFailure = none → (getMetrics now st).2 = st) ∧
    (∀ t, st.breaker.lastFailure = some t → now - t ≤ circuitBreakerResetTime →
      (getMetrics now st).2 = st) ∧
    (∀ t, circuitBreakerThreshold ≤ st.breaker.failures →
      st.breaker.lastFailure = some t → circuitBreakerResetTime < now - t →
      (getMetrics now st).2 =
        { st with breaker := { failures := 0, lastFailure := none } }) := by
  refine ⟨rfl, rfl, rfl, rfl, ?_, ?_, ?_, ?_⟩
  · intro h
    unfold getMetrics isCircuitBreakerOpen
    simp only [if_pos h]
  · intro h
    unfold getMetrics isCircuitBreakerOpen
    split
    · rfl
    · simp only [h]
  · intro t ht hle
    unfold getMetrics isCircuitBreakerOpen
    split
    · rfl
    · simp only [ht, if_neg (Nat.not_lt.mpr hle)]
  · intro t hge ht hwin
    unfold getMetrics isCircuitBreakerOpen
    rw [if_neg (Nat.not_lt.mpr hge)]
    simp only [ht, if_pos hwin]

/-- Witness for C6 (amended): at a closed breaker `getMetrics` is the
identity on the state; on a tripped breaker with the window elapsed it
performs exactly the lazy reset. -/
theorem introspection_readonly_amended_witness :
    getConnectionStatus initialState = initialState.connectionStatus ∧
    (getMetrics 50 initialState).2 = initialState ∧
    (getMetrics 100000 trippedState).2 =
      { trippedState with breaker := { failures := 0, lastFailure := none } } :=
  ⟨(introspection_readonly_amended 50 initialState).1,
   (introspection_readonly_amended 50 initialState).2.2.2.2.1 (by decide),
   (introspection_readonly_amended 100000 trippedState).2.2.2.2.2.2.2 0 (by decide) rfl
     (by decide)⟩

/-- A closed breaker reports closed and is left unchanged. -/
theorem isCircuitBreakerOpen_closed (now : Nat) (b : CircuitBreakerState)
    (h : b.failures < circuitBreakerThreshold) :
    isCircuitBreakerOpen now b = (false, b) := by
  unfold isCircuitBreakerOpen
  rw [if_pos h]

/-- A tripped breaker within the reset window reports open and is left
unchanged. -/
theorem isCircuitBreakerOpen_still_open (now : Nat) (b : CircuitBreakerState) (t : Nat)
    (h1 : circuitBreakerThreshold ≤ b.failures) (h2 : b.lastFailure = some t)
    (h3 : now - t ≤ circuitBreakerResetTime) :
    isCircuitBreakerOpen now b = (true, b) := by
  unfold isCircuitBreakerOpen
  rw [if_neg (Nat.not_lt.mpr h1), h2]
  simp only [if_neg (Nat.not_lt.mpr h3)]

/-- A tripped breaker past the reset window reports closed and is lazily
reset. -/
theorem isCircuitBreakerOpen_elapsed (now : Nat) (b : CircuitBreakerState) (t : Nat)
    (h1 : circuitBreakerThreshold ≤ b.failures) (h2 : b.lastFailure = some t)
    (h3 : circuitBreakerResetTime < now - t) :
    isCircuitBreakerOpen now b = (false, { failures := 0, lastFailure := none }) := by
  unfold isCircuitBreakerOpen
  rw [if_neg (Nat.not_lt.mpr h1), h2]
  simp only [if_pos h3]

/-- C1 (amended): circuit breaker lifecycle as the code implements it.  While
the breaker is open (threshold reached, reset window not elapsed) every call
is rejected immediately with the server-classified, non-retryable 503 error,
the state untouched and no attempt made (the outcome is the same for every
fetch environment).  Once the window elapses the next call is attempted
normally.  A successful attempt leaves the counters reset.  A terminal HTTP
failure leaves the count at exactly 1 with `lastFailureAt = now`, because the
completed fetch first resets the counters and `recordFailure` then increments
the fresh counter.  An unknown failure increments the pre-call count without
a reset.  A timeout failure is surfaced without touching the breaker at all
(this last behaviour is where the original claim fails). -/
theorem breaker_lifecycle_amended (tm : Nat → Nat) (env : Nat → FetchOutcome)
    (st : ApiServiceState) :
    (∀ t, circuitBreakerThreshold ≤ st.breaker.failures →
      st.breaker.lastFailure = some t → tm 0 - t ≤ circuitBreakerResetTime →
      ∀ env2 : Nat → FetchOutcome,
        makeRequest tm env2 0 st =
          (Except.error
            (createApiError ErrorType.server "Service temporarily unavailable" (some 503)
              false none),
           st)) ∧
    (∀ t, circuitBreakerThreshold ≤ st.breaker.failures →
      st.breaker.lastFailure = some t → circuitBreakerResetTime < tm 0 - t →
      st.connectionStatus.isOnline = true →
      ∀ msg e, env 0 = FetchOutcome.response true 200 msg none true e →
        (makeRequest tm env 0 st).1 = Except.ok msg ∧
        (makeRequest tm env 0 st).2.breaker = { failures := 0, lastFailure := none }) ∧
    (st.breaker.failures < circuitBreakerThreshold →
      st.connectionStatus.isOnline = true →
      ∀ msg e, env 0 = FetchOutcome.response true 200 msg none true e →
        (makeRequest tm env 0 st).1 = Except.ok msg ∧
        (makeRequest tm env 0 st).2.breaker = { failures := 0, lastFailure := none }) ∧
    (st.breaker.failures < circuitBreakerThreshold →
      st.connectionStatus.isOnline = true →
      ∀ msg e, env 0 = FetchOutcome.response false 400 msg none true e →
        (makeRequest tm env 0 st).1 = Except.error (handleHttpError 400 msg none) ∧
        (makeRequest tm env 0 st).2.breaker = { failures := 1, lastFailure := some (tm 0) }) ∧
    (st.breaker.failures < circuitBreakerThreshold →
      st.connectionStatus.isOnline = true →
      env 0 = FetchOutcome.otherError →
        (makeRequest tm env 0 st).2.breaker =
          { failures := st.breaker.failures + 1, lastFailure := some (tm 0) }) ∧
    (st.breaker.failures < circuitBreakerThreshold →
      st.connectionStatus.isOnline = true →
      env 0 = FetchOutcome.abortError →
        (makeRequest tm env 0 st).1 =
          Except.error (createApiError ErrorType.timeout "Request timed out" none true none) ∧
        (makeRequest tm env 0 st).2.breaker = st.breaker) := by
  refine ⟨?_, ?_, ?_, ?_, ?_, ?_⟩
  · intro t h1 h2 h3 env2
    have hopen := isCircuitBreakerOpen_still_open (tm 0) st.breaker t h1 h2 h3
    unfold makeRequest makeRequestAux
    simp [hopen]
  · intro t h1 h2 h3 hon msg e henv
    have hopen := isCircuitBreakerOpen_elapsed (tm 0) st.breaker t h1 h2 h3
    unfold makeRequest makeRequestAux
    simp [hopen, hon, henv]
  · intro h1 hon msg e henv
    have hcl := isCircuitBreakerOpen_closed (tm 0) st.breaker h1
    unfold makeRequest makeRequestAux
    simp [hcl, hon, henv]
  · intro h1 hon msg e henv
    have hcl := isCircuitBreakerOpen_closed (tm 0) st.breaker h1
    unfold makeRequest makeRequestAux
    simp [hcl, hon, henv, handleHttpError, createApiError, recordFailure]
  · intro h1 hon henv
    have hcl := isCircuitBreakerOpen_closed (tm 0) st.breaker h1
    unfold makeRequest makeRequestAux
    simp [hcl, hon, henv, recordFailure]
  · intro h1 hon henv
    have hcl := isCircuitBreakerOpen_closed (tm 0) st.breaker h1
    unfold makeRequest makeRequestAux
    simp [hcl, hon, henv]

/-- Counterexample to C1 as stated: a terminal timeout failure does not
increment `consecutiveFailures` and does not set `lastFailureAt` — the
`AbortError` is rethrown as a classified timeout before `recordFailure` is
ever reached.  Moreover a terminal HTTP failure from a state with 3 recorded
failures leaves the count at 1 (reset-then-record), not 4, so "every terminal
failure increments consecutiveFailures" fails on the code. -/
theorem breaker_timeout_no_increment :
    (makeRequest (fun _ => 1000) (fun _ => FetchOutcome.abortError) 0 initialState).1 =
      Except.error (createApiError ErrorType.timeout "Request timed out" none true none) ∧
    (makeRequest (fun _ => 1000) (fun _ => FetchOutcome.abortError) 0 initialState).2.breaker =
      { failures := 0, lastFailure := none } ∧
    (makeRequest (fun _ => 1000)
        (fun _ => FetchOutcome.response false 400 "bad" none true 5) 0
        { connectionStatus := { isOnline := true, lastChecked := 0, responseTime := none },
          breaker := { failures := 3, lastFailure := some 0 },
          requestQueue := [] }).2.breaker =
      { failures := 1, lastFailure := some 1000 } :=
  ⟨rfl, rfl, rfl⟩

/-- Witness for C1 (amended): a tripped breaker 30s after the last failure
rejects with the 503 short-circuit error and an unchanged state even though
the environment would answer 200; 70s after the last failure the call is
attempted normally and succeeds; a success resets the counters; a terminal
400 leaves the count at exactly 1; an unknown failure increments; a timeout
leaves the breaker untouched. -/
theorem breaker_lifecycle_amended_witness :
    makeRequest (fun _ => 30000) (fun _ => FetchOutcome.response true 200 "ok" none true 5) 0
        trippedState =
      (Except.error
        (createApiError ErrorType.server "Service temporarily unavailable" (some 503)
          false none),
       trippedState) ∧
    (makeRequest (fun _ => 70000) (fun _ => FetchOutcome.response true 200 "ok" none true 5) 0
        trippedState).1 = Except.ok "ok" ∧
    (makeRequest (fun _ => 1000) (fun _ => FetchOutcome.response true 200 "ok" none true 5) 0
        initialState).2.breaker = { failures := 0, lastFailure := none } ∧
    (makeRequest (fun _ => 1000) (fun _ => FetchOutcome.response false 400 "bad" none true 5) 0
        initialState).2.breaker = { failures := 1, lastFailure := some 1000 } ∧
    (makeRequest (fun _ => 1000) (fun _ => FetchOutcome.otherError) 0 initialState).2.breaker =
      { failures := 0 + 1, lastFailure := some 1000 } ∧
    (makeRequest (fun _ => 1000) (fun _ => FetchOutcome.abortError) 0 initialState).2.breaker =
      initialState.breaker :=
  ⟨(breaker_lifecycle_amended (fun _ => 30000)
      (fun _ => FetchOutcome.response true 200 "ok" none true 5) trippedState).1 0
      (by decide) rfl (by decide) (fun _ => FetchOutcome.response true 200 "ok" none true 5),
   ((breaker_lifecycle_amended (fun _ => 70000)
      (fun _ => FetchOutcome.response true 200 "ok" none true 5) trippedState).2.1 0
      (by decide) rfl (by decide) rfl "ok" 5 rfl).1,
   ((breaker_lifecycle_amended (fun _ => 1000)
      (fun _ => FetchOutcome.response true 200 "ok" none true 5) initialState).2.2.1
      (by decide) rfl "ok" 5 rfl).2,
   ((breaker_lifecycle_amended (fun _ => 1000)
      (fun _ => FetchOutcome.response false 400 "bad" none true 5) initialState).2.2.2.1
      (by decide) rfl "bad" 5 rfl).2,
   (breaker_lifecycle_amended (fun _ => 1000) (fun _ => FetchOutcome.otherError)
      initialState).2.2.2.2.1 (by decide) rfl rfl,
   ((breaker_lifecycle_amended (fun _ => 1000) (fun _ => FetchOutcome.abortError)
      initialState).2.2.2.2.2 (by decide) rfl rfl).2⟩

/-- Counterexample to C3 as stated: a timeout failure is surfaced on its
first occurrence even though the retry budget is untouched.  The environment
times out on attempt 0 and would answer 200 on every later attempt; if
timeouts were retried the call would succeed, but it surfaces the timeout
error — and likewise for a transport (`TypeError`) network failure. -/
theorem timeout_not_retried :
    (makeRequest (fun _ => 0)
        (fun n => if n = 0 then FetchOutcome.abortError
                  else FetchOutcome.response true 200 "ok" none true 5) 0 initialState).1 =
      Except.error (createApiError ErrorType.timeout "Request timed out" none true none) ∧
    (makeRequest (fun _ => 0)
        (fun n => if n = 0 then FetchOutcome.typeError
                  else FetchOutcome.response true 200 "ok" none true 5) 0 initialState).1 =
      Except.error (createApiError ErrorType.network "Network connection failed" none true none) :=
  ⟨rfl, rfl⟩

/-- C3 (amended): the internal retry loop applies exactly to retryable
`ApiError`s thrown from HTTP classification, i.e. `server` (5xx) and
`rate_limit` (429) responses: those are retried until the budget
(`maxRetries = 3`) is exhausted before being surfaced.  `client`, `auth` and
`unknown` failures are surfaced on first occurrence.  `network` and `timeout`
failures are also surfaced on first occurrence without any internal retry
(they are rethrown before the retry branch), even though they are marked
retryable for the caller. -/
theorem retry_policy_amended (tm : Nat → Nat) (env : Nat → FetchOutcome)
    (st : ApiServiceState) :
    (st.breaker.failures < circuitBreakerThreshold →
      st.connectionStatus.isOnline = true →
      ∀ msg hdr e msg2 e2,
        (∀ n, n < maxRetries → env n = FetchOutcome.response false 500 msg hdr true e) →
        env maxRetries = FetchOutcome.response true 200 msg2 none true e2 →
        (makeRequest tm env 0 st).1 = Except.ok msg2) ∧
    (st.breaker.failures < circuitBreakerThreshold →
      st.connectionStatus.isOnline = true →
      ∀ msg hdr e,
        (∀ n, n ≤ maxRetries → env n = FetchOutcome.response false 500 msg hdr true e) →
        (makeRequest tm env 0 st).1 = Except.error (handleHttpError 500 msg hdr)) ∧
    (st.breaker.failures < circuitBreakerThreshold →
      st.connectionStatus.isOnline = true →
      ∀ msg hdr e msg2 e2,
        env 0 = FetchOutcome.response false 429 msg hdr true e →
        env 1 = FetchOutcome.response true 200 msg2 none true e2 →
        (makeRequest tm env 0 st).1 = Except.ok msg2) ∧
    (st.breaker.failures < circuitBreakerThreshold →
      st.connectionStatus.isOnline = true →
      ∀ msg e, env 0 = FetchOutcome.response false 400 msg none true e →
        (makeRequest tm env 0 st).1 = Except.error (handleHttpError 400 msg none)) ∧
    (st.breaker.failures < circuitBreakerThreshold →
      st.connectionStatus.isOnline = true →
      ∀ msg e, env 0 = FetchOutcome.response false 401 msg none true e →
        (makeRequest tm env 0 st).1 = Except.error (handleHttpError 401 msg none)) ∧
    (st.breaker.failures < circuitBreakerThreshold →
      st.connectionStatus.isOnline = true →
      env 0 = FetchOutcome.otherError →
        (makeRequest tm env 0 st).1 =
          Except.error
            (createApiError ErrorType.unknown "An unexpected error occurred" none false none)) ∧
    (st.breaker.failures < circuitBreakerThreshold →
      st.connectionStatus.isOnline = true →
      env 0 = FetchOutcome.abortError →
        (makeRequest tm env 0 st).1 =
          Except.error (createApiError ErrorType.timeout "Request timed out" none true none)) ∧
    (st.breaker.failures < circuitBreakerThreshold →
      st.connectionStatus.isOnline = true →
      env 0 = FetchOutcome.typeError →
        (makeRequest tm env 0 st).1 =
          Except.error
            (createApiError ErrorType.network "Network connection failed" none true none)) ∧
    (st.breaker.failures < circuitBreakerThreshold →
      st.connectionStatus.isOnline = false →
      ∀ env2 : Nat → FetchOutcome,
        makeRequest tm env2 0 st =
          (Except.error (createApiError ErrorType.network "No internet connection" none true none),
           st)) := by
  refine ⟨?_, ?_, ?_, ?_, ?_, ?_, ?_, ?_, ?_⟩
  · intro h1 hon msg hdr e msg2 e2 hf hs
    have h1marked : st.breaker.failures < 5 := h1
    have h0 := hf 0 (by decide)
    have hA := hf 1 (by decide)
    have hB := hf 2 (by decide)
    have hs3 : env 3 = FetchOutcome.response true 200 msg2 none true e2 := hs
    simp [makeRequest, makeRequestAux, isCircuitBreakerOpen, circuitBreakerThreshold,
      maxRetries, hon, h1marked, h0, hA, hB, hs3, handleHttpError, createApiError,
      recordFailure]
  · intro h1 hon msg hdr e hf
    have h1marked : st.breaker.failures < 5 := h1
    have h0 := hf 0 (by decide)
    have hA := hf 1 (by decide)
    have hB := hf 2 (by decide)
    have hC := hf 3 (by decide)
    simp [makeRequest, makeRequestAux, isCircuitBreakerOpen, circuitBreakerThreshold,
      maxRetries, hon, h1marked, h0, hA, hB, hC, handleHttpError, createApiError,
      recordFailure]
  · intro h1 hon msg hdr e msg2 e2 h0 hA
    have h1marked : st.breaker.failures < 5 := h1
    simp [makeRequest, makeRequestAux, isCircuitBreakerOpen, circuitBreakerThreshold,
      maxRetries, hon, h1marked, h0, hA, handleHttpError, createApiError, recordFailure]
  · intro h1 hon msg e h0
    have h1marked : st.breaker.failures < 5 := h1
    simp [makeRequest, makeRequestAux, isCircuitBreakerOpen, circuitBreakerThreshold,
      hon, h1marked, h0, handleHttpError, createApiError, maxRetries]
  · intro h1 hon msg e h0
    have h1marked : st.breaker.failures < 5 := h1
    simp [makeRequest, makeRequestAux, isCircuitBreakerOpen, circuitBreakerThreshold,
      hon, h1marked, h0, handleHttpError, createApiError, maxRetries]
  · intro h1 hon h0
    have h1marked : st.breaker.failures < 5 := h1
    simp [makeRequest, makeRequestAux, isCircuitBreakerOpen, circuitBreakerThreshold,
      hon, h1marked, h0]
  · intro h1 hon h0
    have h1marked : st.breaker.failures < 5 := h1
    simp [makeRequest, makeRequestAux, isCircuitBreakerOpen, circuitBreakerThreshold,
      hon, h1marked, h0]
  · intro h1 hon h0
    have h1marked : st.breaker.failures < 5 := h1
    simp [makeRequest, makeRequestAux, isCircuitBreakerOpen, circuitBreakerThreshold,
      hon, h1marked, h0]
  · intro h1 hoff env2
    have h1marked : st.breaker.failures < 5 := h1
    simp [makeRequest, makeRequestAux, isCircuitBreakerOpen, circuitBreakerThreshold,
      h1marked, hoff]

/-- Witness for C3 (amended): concrete runs from a fresh state.  Three 500s
then a 200 yield success after retries; four 500s surface the server error;
a 429 then a 200 yields success; a 400, a 401, an unknown error, a timeout
and a transport failure are each surfaced at once; offline short-circuits
with the network error and no attempt. -/
theorem retry_policy_amended_witness :
    (makeRequest (fun _ => 0)
        (fun n => match n with
          | 0 => FetchOutcome.response false 500 "boom" none true 5
          | 1 => FetchOutcome.response false 500 "boom" none true 5
          | 2 => FetchOutcome.response false 500 "boom" none true 5
          | _ => FetchOutcome.response true 200 "ok" none true 5) 0 initialState).1 =
      Except.ok "ok" ∧
    (makeRequest (fun _ => 0) (fun _ => FetchOutcome.response false 500 "boom" none true 5)
        0 initialState).1 = Except.error (handleHttpError 500 "boom" none) ∧
    (makeRequest (fun _ => 0)
        (fun n => match n with
          | 0 => FetchOutcome.response false 429 "slow" (some 2) true 5
          | _ => FetchOutcome.response true 200 "ok" none true 5) 0 initialState).1 =
      Except.ok "ok" ∧
    (makeRequest (fun _ => 0) (fun _ => FetchOutcome.response false 400 "bad" none true 5)
        0 initialState).1 = Except.error (handleHttpError 400 "bad" none) ∧
    (makeRequest (fun _ => 0) (fun _ => FetchOutcome.response false 401 "bad" none true 5)
        0 initialState).1 = Except.error (handleHttpError 401 "bad" none) ∧
    (makeRequest (fun _ => 0) (fun _ => FetchOutcome.otherError) 0 initialState).1 =
      Except.error
        (createApiError ErrorType.unknown "An unexpected error occurred" none false none) ∧
    (makeRequest (fun _ => 0) (fun _ => FetchOutcome.abortError) 0 initialState).1 =
      Except.error (createApiError ErrorType.timeout "Request timed out" none true none) ∧
    (makeRequest (fun _ => 0) (fun _ => FetchOutcome.typeError) 0 initialState).1 =
      Except.error
        (createApiError ErrorType.network "Network connection failed" none true none) ∧
    makeRequest (fun _ => 0) (fun _ => FetchOutcome.abortError) 0
        { connectionStatus := { isOnline := false, lastChecked := 0, responseTime := none },
          breaker := { failures := 0, lastFailure := none }, requestQueue := [] } =
      (Except.error (createApiError ErrorType.network "No internet connection" none true none),
       { connectionStatus := { isOnline := false, lastChecked := 0, responseTime := none },
         breaker := { failures := 0, lastFailure := none }, requestQueue := [] }) :=
  ⟨(retry_policy_amended (fun _ => 0)
      (fun n => match n with
        | 0 => FetchOutcome.response false 500 "boom" none true 5
        | 1 => FetchOutcome.response false 500 "boom" none true 5
        | 2 => FetchOutcome.response false 500 "boom" none true 5
        | _ => FetchOutcome.response true 200 "ok" none true 5) initialState).1
      (by decide) rfl "boom" none 5 "ok" 5
      (by
        intro n hn
        simp only [maxRetries] at hn
        interval_cases n <;> rfl)
      rfl,
   (retry_policy_amended (fun _ => 0)
      (fun _ => FetchOutcome.response false 500 "boom" none true 5) initialState).2.1
      (by decide) rfl "boom" none 5 (fun _ _ => rfl),
   (retry_policy_amended (fun _ => 0)
      (fun n => match n with
        | 0 => FetchOutcome.response false 429 "slow" (some 2) true 5
        | _ => FetchOutcome.response true 200 "ok" none true 5) initialState).2.2.1
      (by decide) rfl "slow" (some 2) 5 "ok" 5 rfl rfl,
   (retry_policy_amended (fun _ => 0)
      (fun _ => FetchOutcome.response false 400 "bad" none true 5) initialState).2.2.2.1
      (by decide) rfl "bad" 5 rfl,
   (retry_policy_amended (fun _ => 0)
      (fun _ => FetchOutcome.response false 401 "bad" none true 5) initialState).2.2.2.2.1
      (by decide) rfl "bad" 5 rfl,
   (retry_policy_amended (fun _ => 0) (fun _ => FetchOutcome.otherError)
      initialState).2.2.2.2.2.1 (by decide) rfl rfl,
   (retry_policy_amended (fun _ => 0) (fun _ => FetchOutcome.abortError)
      initialState).2.2.2.2.2.2.1 (by decide) rfl rfl,
   (retry_policy_amended (fun _ => 0) (fun _ => FetchOutcome.typeError)
      initialState).2.2.2.2.2.2.2.1 (by decide) rfl rfl,
   (retry_policy_amended (fun _ => 0) (fun _ => FetchOutcome.abortError)
      { connectionStatus := { isOnline := false, lastChecked := 0, responseTime := none },
        breaker := { failures := 0, lastFailure := none },
        requestQueue := [] }).2.2.2.2.2.2.2.2 (by decide) rfl
      (fun _ => FetchOutcome.abortError)⟩

/-! ## Request deduplication (`sendChatMessage`, src/src/services/apiService.ts) -/

/-- `this.baseUrl = '/api'`. -/
def baseUrl : String := "/api"

/-- The chat endpoint used by `sendChatMessage`: `${this.baseUrl}/chat`. -/
def chatUrl : String := baseUrl ++ "/chat"

/-- Embeds `private getRequestKey(url, options)`: the canonical key
`url + "_" + JSON.stringify(options.body)`.  The body is already the
JSON-serialized request; its (injective) re-stringification is embedded as
the serialized string itself. -/
def getRequestKey (url : String) (body : String) : String :=
  url ++ "_" ++ body

/-- Operational state of `sendChatMessage`'s dedup logic.  `inFlight` is the
`requestQueue` map from key to the identity of the pending physical request;
`nextAttempt` numbers physical requests as they are issued (so it also counts
them); `joined` records which pending request each caller awaits; `delivered`
records the outcome each caller has received. -/
structure DedupState where
  inFlight : String → Option Nat
  nextAttempt : Nat
  joined : Nat → Option Nat
  delivered : Nat → Option (Except ApiError String)

/-- The two kinds of events in a `sendChatMessage` history: a caller invokes
`sendChatMessage` with a serialized request body, or the shared promise for a
body's key settles with an outcome (the `finally` then deletes the map
entry). -/
inductive DedupEvent where
  | invoke (caller : Nat) (body : String)
  | settle (body : String) (outcome : Except ApiError String)

/-- One step of `sendChatMessage`'s dedup discipline, embedding lines
240–265 of apiService.ts: an invoke for a key already in `requestQueue`
awaits the existing promise (no new physical request); an invoke for a free
key issues a fresh physical request and stores its promise; a settle
delivers the shared outcome to every caller awaiting that promise and
removes the entry from the queue. -/
def dedupStep (s : DedupState) (ev : DedupEvent) : DedupState :=
  match ev with
  | DedupEvent.invoke caller body =>
    let key := getRequestKey chatUrl body
    match s.inFlight key with
    | some id =>
      { s with
        joined := fun c => if c = caller then some id else s.joined c }
    | none =>
      { s with
        inFlight := fun k => if k = key then some s.nextAttempt else s.inFlight k,
        joined := fun c => if c = caller then some s.nextAttempt else s.joined c,
        nextAttempt := s.nextAttempt + 1 }
  | DedupEvent.settle body outcome =>
    let key := getRequestKey chatUrl body
    match s.inFlight key with
    | some id =>
      { s with
        delivered := fun c => if s.joined c = some id then some outcome else s.delivered c,
        inFlight := fun k => if k = key then none else s.inFlight k }
    | none => s

/-- A run of `sendChatMessage` dedup events. -/
def dedupRun (s : DedupState) (evs : List DedupEvent) : DedupState :=
  evs.foldl dedupStep s

/-- C2: single-flight deduplication: when two distinct callers invoke with
the identical body while the key is free and the shared outcome then
settles, exactly one physical request is issued, both callers receive the
identical outcome, the in-flight entry for the key is gone after delivery
regardless of the outcome's success or failure, and a subsequent invoke with
the same body issues a fresh physical request. -/
theorem dedup_single_flight (s : DedupState) (A B : Nat) (body : String)
    (out : Except ApiError String) (hAB : A ≠ B)
    (hfree : s.inFlight (getRequestKey chatUrl body) = none) :
    (dedupRun s
        [DedupEvent.invoke A body, DedupEvent.invoke B body,
         DedupEvent.settle body out]).nextAttempt = s.nextAttempt + 1 ∧
    (dedupRun s
        [DedupEvent.invoke A body, DedupEvent.invoke B body,
         DedupEvent.settle body out]).delivered A = some out ∧
    (dedupRun s
        [DedupEvent.invoke A body, DedupEvent.invoke B body,
         DedupEvent.settle body out]).delivered B = some out ∧
    (dedupRun s
        [DedupEvent.invoke A body, DedupEvent.invoke B body,
         DedupEvent.settle body out]).inFlight (getRequestKey chatUrl body) = none ∧
    (dedupStep
        (dedupRun s
          [DedupEvent.invoke A body, DedupEvent.invoke B body,
           DedupEvent.settle body out])
        (DedupEvent.invoke A body)).nextAttempt =
      (dedupRun s
        [DedupEvent.invoke A body, DedupEvent.invoke B body,
         DedupEvent.settle body out]).nextAttempt + 1 := by
  simp [dedupRun, dedupStep, hfree, hAB]

/-- Witness for C2: from an empty state, callers 0 and 1 with the same body
share one physical request and both receive the settled outcome; the entry
is gone afterwards and a fresh invoke starts request number 1. -/
theorem dedup_single_flight_witness :
    (dedupRun
        { inFlight := fun _ => none, nextAttempt := 0, joined := fun _ => none,
          delivered := fun _ => none }
        [DedupEvent.invoke 0 "m", DedupEvent.invoke 1 "m",
         DedupEvent.settle "m" (Except.ok "r")]).nextAttempt = 0 + 1 ∧
    (dedupRun
        { inFlight := fun _ => none, nextAttempt := 0, joined := fun _ => none,
          delivered := fun _ => none }
        [DedupEvent.invoke 0 "m", DedupEvent.invoke 1 "m",
         DedupEvent.settle "m" (Except.ok "r")]).delivered 0 = some (Except.ok "r") ∧
    (dedupRun
        { inFlight := fun _ => none, nextAttempt := 0, joined := fun _ => none,
          delivered := fun _ => none }
        [DedupEvent.invoke 0 "m", DedupEvent.invoke 1 "m",
         DedupEvent.settle "m" (Except.ok "r")]).delivered 1 = some (Except.ok "r") ∧
    (dedupRun
        { inFlight := fun _ => none, nextAttempt := 0, joined := fun _ => none,
          delivered := fun _ => none }
        [DedupEvent.invoke 0 "m", DedupEvent.invoke 1 "m",
         DedupEvent.settle "m" (Except.ok "r")]).inFlight
      (getRequestKey chatUrl "m") = none :=
  have h := dedup_single_flight
    { inFlight := fun _ => none, nextAttempt := 0, joined := fun _ => none,
      delivered := fun _ => none }
    0 1 "m" (Except.ok "r") (by decide) rfl
  ⟨h.1, h.2.1, h.2.2.1, h.2.2.2.1⟩
